import Mathlib

/-
Verification development for the limeon 2D raster-collision physics engine.

The embedding follows src/src/player/phys.rs (PlayerPhys, min/max, new, update
with its inner get_limit closure), src/src/world.rs (TileEffect,
TileEffectCondition, TileEffectMap, WorldMap and the reference effect table)
and src/src/constants.rs (GRAVITY).  Rust f64 values are modelled as ℚ (no
theorem below depends on rounding, infinities or NaN); `x.is_sign_negative()`
is modelled as `x < 0` (ℚ has no negative zero); the `as u32` saturating cast
is modelled by `satU32` (all quantities stay far below 2^32 in every statement
below, so the upper saturation bound is irrelevant); the `u32` subtraction
`map.height() - lim` is computed in ℤ, and a negative ("wrapped") result is
treated as out of bounds, which matches the release-mode observable behaviour
of the wrapping subtraction; the unbounded `loop` of get_limit is given an
explicit iteration budget (`fuel`) that exceeds the number of iterations the
scan can make before it exits through a raster bound.
-/

namespace Limeon

attribute [local semireducible] Rat.add Rat.mul Rat.inv Rat.sub

/-- RGBA pixel color, from image::Rgba<u8> as used in world.rs. -/
structure Rgba where
  r : ℕ
  g : ℕ
  b : ℕ
  a : ℕ
deriving DecidableEq, Repr

/-- Modelled from the spec: the 2D vector primitive ("Vector math primitive
(2D float vector with componentwise arithmetic)"); the repository's vec2
module is not among the provided sources.  Componentwise arithmetic over ℚ. -/
structure F64x2 where
  x : ℚ
  y : ℚ
deriving DecidableEq, Repr

/-- F64x2::new. -/
def F64x2.new (x y : ℚ) : F64x2 := ⟨x, y⟩

/-- F64x2::zero. -/
def F64x2.zero : F64x2 := ⟨0, 0⟩

instance : Add F64x2 := ⟨fun a b => ⟨a.x + b.x, a.y + b.y⟩⟩

/-- Scalar multiplication, `v * k` on a vector and an f64. -/
def F64x2.smul (v : F64x2) (k : ℚ) : F64x2 := ⟨v.x * k, v.y * k⟩

/-- Scalar division, `v / k` on a vector and an f64. -/
def F64x2.sdiv (v : F64x2) (k : ℚ) : F64x2 := ⟨v.x / k, v.y / k⟩

@[simp] theorem F64x2.add_x (a b : F64x2) : (a + b).x = a.x + b.x := rfl

@[simp] theorem F64x2.add_y (a b : F64x2) : (a + b).y = a.y + b.y := rfl

@[simp] theorem F64x2.smul_x (v : F64x2) (k : ℚ) : (v.smul k).x = v.x * k := rfl

@[simp] theorem F64x2.smul_y (v : F64x2) (k : ℚ) : (v.smul k).y = v.y * k := rfl

@[simp] theorem F64x2.sdiv_x (v : F64x2) (k : ℚ) : (v.sdiv k).x = v.x / k := rfl

@[simp] theorem F64x2.sdiv_y (v : F64x2) (k : ℚ) : (v.sdiv k).y = v.y / k := rfl

@[simp] theorem F64x2.new_x (a b : ℚ) : (F64x2.new a b).x = a := rfl

@[simp] theorem F64x2.new_y (a b : ℚ) : (F64x2.new a b).y = b := rfl

@[simp] theorem F64x2.zero_x : F64x2.zero.x = 0 := rfl

@[simp] theorem F64x2.zero_y : F64x2.zero.y = 0 := rfl

/-- constants.rs: `GRAVITY = F64x2::new(0.0, -9.80665)`. -/
def GRAVITY : F64x2 := F64x2.new 0 (-(980665 / 100000))

/-- phys.rs: `enum HorizontalDirection { Left, Right }`. -/
inductive HorizontalDirection where
  | Left
  | Right
deriving DecidableEq, Repr

/-- phys.rs: `fn min(a, b) { if a > b { b } else { a } }`. -/
def fmin (a b : ℚ) : ℚ := if a > b then b else a

/-- phys.rs: `fn max(a, b) { if a > b { a } else { b } }`. -/
def fmax (a b : ℚ) : ℚ := if a > b then a else b

/-- world.rs: `enum TileEffectCondition`. -/
inductive TileEffectCondition where
  | StandingOn
  | InsideOf
deriving DecidableEq, Repr

/-- world.rs: `enum TileEffect`; Collision carries (bounce factor, friction coeff). -/
inductive TileEffect where
  | Collision (bounce_factor : ℚ) (friction : F64x2)
  | HorizontalSpeedBoost (multiplier : ℚ)
  | LaunchEnable (strength : ℚ)
  | Wind (force : F64x2)
deriving DecidableEq, Repr

/-- world.rs: `TileEffectMap = HashMap<Rgba<u8>, (Vec<TileEffect>, Vec<TileEffectCondition>)>`,
modelled extensionally as its lookup function (`HashMap::get`). -/
abbrev TileEffectMap := Rgba → Option (List TileEffect × List TileEffectCondition)

/-- `HashMap::insert` on the extensional view of a TileEffectMap. -/
def setEffect (em : TileEffectMap) (c : Rgba)
    (entry : List TileEffect × List TileEffectCondition) : TileEffectMap :=
  fun c2 => if c2 = c then some entry else em c2

/-- world.rs: `struct WorldMap`; the ImageBuffer is (width, height, pixel function). -/
structure WorldMap where
  width : ℕ
  height : ℕ
  pix : ℕ → ℕ → Rgba
  effect_map : TileEffectMap
  map_px_to_meter : ℚ
  cam_loc : F64x2

/-- `ImageBuffer::get_pixel_checked`: Some exactly when both coordinates are in bounds. -/
def WorldMap.get_pixel_checked (m : WorldMap) (x y : ℕ) : Option Rgba :=
  if x < m.width ∧ y < m.height then some (m.pix x y) else none

/-- The saturating `as u32` cast applied to an f64 value (negative values clamp
to 0; every value appearing in the statements below is far below 2^32). -/
def satU32 (q : ℚ) : ℕ := (⌊q⌋).toNat

/-- The raster row sampled by get_limit for a world row, phys.rs lines 137-142:
`map.map.height() - (world_row as u32)`, computed in ℤ so that the underflowing
case is visible as a negative result. -/
def sampledRasterRow (height : ℕ) (worldRow : ℚ) : ℤ :=
  (height : ℤ) - (satU32 worldRow : ℤ)

/-- The `mode: u8` argument of get_limit: 1 = y min, 2 = y max, 3 = x min, 4 = x max. -/
inductive Mode where
  | yMin
  | yMax
  | xMin
  | xMax
deriving DecidableEq, Repr, BEq

/-- The inner effect loop of get_limit (phys.rs lines 144-166) on one pixel's
effect list: returns the collision flag and the (possibly updated)
collision_information; the material is recorded only on the feet (mode 1) probe. -/
def scanEffects (isFeet : Bool) (effects : List TileEffect)
    (info : Option (ℚ × F64x2)) : Bool × Option (ℚ × F64x2) :=
  effects.foldl
    (fun acc e =>
      match e with
      | TileEffect.Collision bounce_factor friction =>
        (true, if isFeet then some (bounce_factor, friction) else acc.2)
      | _ => acc)
    (false, info)

/-- Effect lookup for one sampled pixel (phys.rs line 145): an unregistered
color leaves the collision flag false and the recorded material unchanged. -/
def pixelScan (em : TileEffectMap) (isFeet : Bool) (info : Option (ℚ × F64x2))
    (pixel : Rgba) : Bool × Option (ℚ × F64x2) :=
  match em pixel with
  | some eff => scanEffects isFeet eff.1 info
  | none => (false, info)

/-- Result of one get_limit scan: the limit (in pixels for getLimitGo, in
meters for get_limit), the threaded collision_information, and whether the
`height - lim` subtraction underflowed at any sample. -/
structure ProbeOut where
  lim : ℚ
  info : Option (ℚ × F64x2)
  underflow : Bool
deriving DecidableEq, Repr

/-- The `loop` of get_limit, phys.rs lines 130-189.  `fuel` bounds the number
of iterations; `get_limit` supplies a budget larger than any scan can use
before exiting through a raster bound. -/
def getLimitGo (map : WorldMap) (start : F64x2) (mode : Mode) :
    ℕ → ℚ → Option (ℚ × F64x2) → Bool → ProbeOut
  | 0, lim, info, uf => ⟨lim, info, uf⟩
  | fuel + 1, lim, info, uf =>
    let sx : ℕ := satU32 (match mode with
      | Mode.yMin | Mode.yMax => start.x
      | Mode.xMin | Mode.xMax => lim)
    let rowRaw : ℤ := sampledRasterRow map.height (match mode with
      | Mode.yMin | Mode.yMax => lim
      | Mode.xMin | Mode.xMax => start.y)
    let uf2 := uf || decide (rowRaw < 0)
    match (if 0 ≤ rowRaw then map.get_pixel_checked sx rowRaw.toNat else none) with
    | none => ⟨lim, info, uf2⟩
    | some pixel =>
      let r := pixelScan map.effect_map (mode == Mode.yMin) info pixel
      if r.1 then ⟨lim, r.2, uf2⟩
      else
        match mode with
        | Mode.yMin | Mode.xMin =>
          if satU32 lim = 0 then ⟨lim, r.2, uf2⟩
          else getLimitGo map start mode fuel ((satU32 lim - 1 : ℕ) : ℚ) r.2 uf2
        | Mode.yMax | Mode.xMax =>
          getLimitGo map start mode fuel ((satU32 lim + 1 : ℕ) : ℚ) r.2 uf2

/-- get_limit, phys.rs lines 122-193: starting coordinate in pixel space, scan
mode, and the collision_information captured by the closure; returns the limit
converted to meters (`lim * map_px_to_meter`). -/
def get_limit (map : WorldMap) (start : F64x2) (mode : Mode)
    (info : Option (ℚ × F64x2)) : ProbeOut :=
  let startLim : ℚ := match mode with
    | Mode.yMin | Mode.yMax => start.y
    | Mode.xMin | Mode.xMax => start.x
  let r := getLimitGo map start mode
    (map.width + map.height + satU32 startLim + 2) startLim info false
  ⟨r.lim * map.map_px_to_meter, r.info, r.underflow⟩

/-- `pixel_space_self_coords`, phys.rs lines 109-114. -/
def pixelSpaceCoords (meter_to_map_px : ℚ) (loc : F64x2) : F64x2 :=
  F64x2.new ((⌊loc.x * meter_to_map_px⌋ : ℤ) : ℚ) ((⌊loc.y * meter_to_map_px⌋ : ℤ) : ℚ)

/-- The fourteen probe results of one tick (phys.rs lines 196-213), with the
`± map_px_to_meter` adjustments applied as at the assignment sites, plus the
final collision_information. -/
structure ProbeResults where
  y0_min : ℚ
  y1_min : ℚ
  y2_min : ℚ
  y0_max : ℚ
  y1_max : ℚ
  y2_max : ℚ
  x0_min : ℚ
  x1_min : ℚ
  x2_min : ℚ
  x3_min : ℚ
  x0_max : ℚ
  x1_max : ℚ
  x2_max : ℚ
  x3_max : ℚ
  info : Option (ℚ × F64x2)
deriving DecidableEq, Repr

/-- The fourteen get_limit calls of update (phys.rs lines 196-213), in source
order, threading collision_information through the captured closure state. -/
def runProbes (map : WorldMap) (cp : F64x2) : ProbeResults :=
  let scale := map.map_px_to_meter
  let p1 := get_limit map (cp + F64x2.new 0 0) Mode.yMin none
  let p2 := get_limit map (cp + F64x2.new 1 0) Mode.yMin p1.info
  let p3 := get_limit map (cp + F64x2.new 2 0) Mode.yMin p2.info
  let p4 := get_limit map (cp + F64x2.new 0 4) Mode.yMax p3.info
  let p5 := get_limit map (cp + F64x2.new 1 4) Mode.yMax p4.info
  let p6 := get_limit map (cp + F64x2.new 2 4) Mode.yMax p5.info
  let p7 := get_limit map (cp + F64x2.new 0 1) Mode.xMin p6.info
  let p8 := get_limit map (cp + F64x2.new 0 2) Mode.xMin p7.info
  let p9 := get_limit map (cp + F64x2.new 0 3) Mode.xMin p8.info
  let p10 := get_limit map (cp + F64x2.new 0 4) Mode.xMin p9.info
  let p11 := get_limit map (cp + F64x2.new 2 1) Mode.xMax p10.info
  let p12 := get_limit map (cp + F64x2.new 2 2) Mode.xMax p11.info
  let p13 := get_limit map (cp + F64x2.new 2 3) Mode.xMax p12.info
  let p14 := get_limit map (cp + F64x2.new 2 4) Mode.xMax p13.info
  { y0_min := p1.lim, y1_min := p2.lim, y2_min := p3.lim,
    y0_max := p4.lim - scale, y1_max := p5.lim - scale, y2_max := p6.lim - scale,
    x0_min := p7.lim + scale, x1_min := p8.lim + scale,
    x2_min := p9.lim + scale, x3_min := p10.lim + scale,
    x0_max := p11.lim, x1_max := p12.lim, x2_max := p13.lim, x3_max := p14.lim,
    info := p14.info }

/-- The horizontal friction step of update, phys.rs lines 217-229, applied to
velocity.x when a feet-probe Collision material was recorded this tick.
`is_sign_negative` is modelled as `< 0`. -/
def frictionStep (velx friction_coeff_x dt : ℚ) : ℚ :=
  let friction0 := friction_coeff_x * GRAVITY.y * dt
  let friction := if ¬ velx < 0 then -friction0 else friction0
  if |velx - friction| < |velx| ∧ ((velx - friction < 0) ↔ (velx < 0))
  then velx - friction else 0

/-- The four aggregated axis limits, phys.rs lines 232-235 (x side, four probes). -/
def aggMax4 (a b c d : ℚ) : ℚ := fmax (fmax a b) (fmax c d)

/-- phys.rs line 233 (y min side, three probes). -/
def aggMax3 (a b c : ℚ) : ℚ := fmax (fmax a b) c

/-- phys.rs line 234 (x max side, four probes). -/
def aggMin4 (a b c d : ℚ) : ℚ := fmin (fmin a b) (fmin c d)

/-- phys.rs line 235 (y max side, three probes). -/
def aggMin3 (a b c : ℚ) : ℚ := fmin (fmin a b) c

/-- The axis clamp resolution of update, phys.rs lines 237-256, run only when a
feet-probe Collision material was recorded: the four sides in source order
(x min, x max, y min, y max); the x max check reads the location already
clamped by the x min check.  Returns (location, velocity). -/
def resolveClamps (loc vel size : F64x2)
    (x_min x_max y_min y_max bounce_coeff : ℚ) : F64x2 × F64x2 :=
  let lx1 := if loc.x < x_min then x_min else loc.x
  let vx1 := if loc.x < x_min then -vel.x * bounce_coeff else vel.x
  let lx2 := if lx1 + size.x > x_max then x_max - size.x else lx1
  let vx2 := if lx1 + size.x > x_max then -vx1 * bounce_coeff else vx1
  let ly1 := if loc.y < y_min then y_min else loc.y
  let vy1 := if loc.y < y_min then -vel.y * bounce_coeff else vel.y
  let ly2 := if ly1 + size.y > y_max then y_max - size.y else ly1
  let vy2 := if ly1 + size.y > y_max then -vy1 * bounce_coeff else vy1
  (⟨lx2, ly2⟩, ⟨vx2, vy2⟩)

/-- The limit-violation test of the anomalous branch, phys.rs line 257 (taken
when no Collision material was recorded; the source only logs an error there). -/
def anyLimitViolation (loc size : F64x2) (x_min x_max y_min y_max : ℚ) : Prop :=
  loc.x < x_min ∨ loc.x + size.x > x_max ∨ loc.y < y_min ∨ loc.y + size.y > y_max

instance (loc size : F64x2) (a b c d : ℚ) :
    Decidable (anyLimitViolation loc size a b c d) := by
  unfold anyLimitViolation; infer_instance

/-- phys.rs: `struct PlayerPhys`. -/
structure PlayerPhys where
  loc : F64x2
  force : F64x2
  accel : F64x2
  vel : F64x2
  movement_forces : F64x2
  mass : ℚ
  last_direction : HorizontalDirection
  size : F64x2
  x0_min : ℚ
  x1_min : ℚ
  x2_min : ℚ
  x3_min : ℚ
  x0_max : ℚ
  x1_max : ℚ
  x2_max : ℚ
  x3_max : ℚ
  y0_min : ℚ
  y1_min : ℚ
  y2_min : ℚ
  y0_max : ℚ
  y1_max : ℚ
  y2_max : ℚ
deriving DecidableEq, Repr

/-- PlayerPhys::new, phys.rs lines 72-97: no validation of mass or size. -/
def PlayerPhys.new (loc : F64x2) (mass : ℚ) (size : F64x2) : PlayerPhys :=
  { loc := loc
    force := F64x2.zero
    accel := F64x2.zero
    vel := F64x2.zero
    movement_forces := F64x2.zero
    mass := mass
    last_direction := HorizontalDirection.Right
    size := size
    x0_min := 0, x1_min := 0, x2_min := 0, x3_min := 0
    x0_max := 0, x1_max := 0, x2_max := 0, x3_max := 0
    y0_min := 0, y1_min := 0, y2_min := 0
    y0_max := 0, y1_max := 0, y2_max := 0 }

/-- The tail of update after the probes, phys.rs lines 217-267: friction (gated
on the recorded material), aggregation of the per-probe limits, clamp
resolution (or, with no material, only the logged anomaly check of line 257),
and the facing update. -/
def PlayerPhys.finishUpdate (s : PlayerPhys)
    (collision_information : Option (ℚ × F64x2)) (dt : ℚ) : PlayerPhys :=
  let vel1 : F64x2 := match collision_information with
    | some (_, friction_coeff) => ⟨frictionStep s.vel.x friction_coeff.x dt, s.vel.y⟩
    | none => s.vel
  let x_min := aggMax4 s.x0_min s.x1_min s.x2_min s.x3_min
  let y_min := aggMax3 s.y0_min s.y1_min s.y2_min
  let x_max := aggMin4 s.x0_max s.x1_max s.x2_max s.x3_max
  let y_max := aggMin3 s.y0_max s.y1_max s.y2_max
  let lv : F64x2 × F64x2 := match collision_information with
    | some (bounce_coeff, _) => resolveClamps s.loc vel1 s.size x_min x_max y_min y_max bounce_coeff
    | none => (s.loc, vel1)
  let last_dir := if s.movement_forces.x > 0 then HorizontalDirection.Right
    else if s.movement_forces.x < 0 then HorizontalDirection.Left
    else s.last_direction
  { s with loc := lv.1, vel := lv.2, last_direction := last_dir }

/-- PlayerPhys::update, phys.rs lines 99-268: force integration, explicit Euler
step, the fourteen probes from the pre-update location's lattice cell, commit
of the new location, then finishUpdate. -/
def PlayerPhys.update (s : PlayerPhys) (dt : ℚ) (map : WorldMap) : PlayerPhys :=
  let map_px_to_meter := map.map_px_to_meter
  let meter_to_map_px := 1 / map_px_to_meter
  let forces := s.force + s.movement_forces
  let accel := forces.sdiv s.mass
  let vel1 := s.vel + GRAVITY.smul dt
  let vel2 := vel1 + accel.smul dt
  let new_loc := s.loc + vel2.smul dt
  let current_pixelspace_loc := pixelSpaceCoords meter_to_map_px s.loc
  let pr := runProbes map current_pixelspace_loc
  let s1 := { s with
    accel := accel, vel := vel2, loc := new_loc,
    y0_min := pr.y0_min, y1_min := pr.y1_min, y2_min := pr.y2_min,
    y0_max := pr.y0_max, y1_max := pr.y1_max, y2_max := pr.y2_max,
    x0_min := pr.x0_min, x1_min := pr.x1_min, x2_min := pr.x2_min, x3_min := pr.x3_min,
    x0_max := pr.x0_max, x1_max := pr.x1_max, x2_max := pr.x2_max, x3_max := pr.x3_max }
  s1.finishUpdate pr.info dt

/-- The fully transparent background color registered with an empty effect list. -/
def voidColor : Rgba := ⟨0, 0, 0, 0⟩

/-- The gold tile: Collision(0.0, (0.15, 0.0)) plus a speed boost. -/
def goldColor : Rgba := ⟨230, 180, 50, 255⟩

/-- The basic collision tile: Collision(0.15, (0.5, 0.0)). -/
def whiteColor : Rgba := ⟨255, 255, 255, 255⟩

/-- The tile effect table built in WorldMap::from_path, world.rs lines 57-99. -/
def referenceEffectMap : TileEffectMap := fun c =>
  if c = goldColor then
    some ([TileEffect.Collision 0 (F64x2.new (3 / 20) 0),
           TileEffect.HorizontalSpeedBoost 2], [TileEffectCondition.StandingOn])
  else if c = ⟨50, 222, 250, 255⟩ then
    some ([TileEffect.LaunchEnable 1], [TileEffectCondition.InsideOf])
  else if c = voidColor then
    some ([], [])
  else if c = ⟨255, 75, 125, 255⟩ then
    some ([TileEffect.Wind (F64x2.new 3 7)], [TileEffectCondition.InsideOf])
  else if c = whiteColor then
    some ([TileEffect.Collision (3 / 20) (F64x2.new (1 / 2) 0)], [])
  else if c = ⟨0, 255, 20, 255⟩ then
    some ([TileEffect.Collision (9 / 10) (F64x2.new (4 / 5) 0)], [])
  else none

/-- A 6x6 test raster whose bottom raster row (row 5) is the gold bounce-0
collision tile and which is transparent elsewhere; scale 1 px = 0.2 m as in
world.rs. -/
def goldFloorMap : WorldMap :=
  { width := 6, height := 6,
    pix := fun _ y => if y = 5 then goldColor else voidColor,
    effect_map := referenceEffectMap,
    map_px_to_meter := 1 / 5,
    cam_loc := F64x2.zero }

/-- The same raster with the bottom row made of the white bounce-0.15 tile. -/
def whiteFloorMap : WorldMap :=
  { goldFloorMap with pix := fun _ y => if y = 5 then whiteColor else voidColor }

/-- The same raster fully transparent. -/
def emptyMap : WorldMap :=
  { goldFloorMap with pix := fun _ _ => voidColor }

/-- A 2x2 fully transparent raster (small enough that the upward probes start
above the raster top). -/
def tinyMap : WorldMap :=
  { width := 2, height := 2,
    pix := fun _ _ => voidColor,
    effect_map := referenceEffectMap,
    map_px_to_meter := 1 / 5,
    cam_loc := F64x2.zero }

/-- A body at rest exactly on the floor surface of the 6x6 test rasters:
location (3/5, 1/5) (lattice cell (3, 1), feet on the top surface of the
bottom tile row), zero velocity and forces, mass 1, size (1/5, 1/5). -/
def restState : PlayerPhys :=
  PlayerPhys.new (F64x2.new (3 / 5) (1 / 5)) 1 (F64x2.new (1 / 5) (1 / 5))

/-- A body over empty space whose x position violates the aggregated x min
limit: location (1/10, 1/2) (cell (0, 2)), zero velocity and forces. -/
def anomalyState : PlayerPhys :=
  PlayerPhys.new (F64x2.new (1 / 10) (1 / 2)) 1 (F64x2.new (1 / 5) (1 / 5))

/-- C1 counterexample: on a raster of height 4, world row 0 samples raster row
4, not raster row 3 = height - 0 - 1 as the claim states, and row 4 is out of
bounds, so the bottom raster row does not correspond to world row 0 and not
every in-bounds world row samples an in-bounds raster row. -/
theorem C1_counterexample :
    sampledRasterRow 4 0 = 4
    ∧ sampledRasterRow 4 0 ≠ 4 - 0 - 1
    ∧ ¬ sampledRasterRow 4 0 < 4 := by
  decide

/-- C1 (amended): the raster row sampled for world row `w` is
`raster_height - w` (with no `- 1`), so the bottom raster row (height - 1)
corresponds to world row 1, world row 0 samples the out-of-bounds row
`raster_height` (which stops the scan), and world row `w` samples an in-bounds
raster row exactly when `1 ≤ w ≤ raster_height`. -/
theorem C1_theorem (h w : ℕ) :
    sampledRasterRow h (w : ℚ) = (h : ℤ) - (w : ℤ)
    ∧ ((0 ≤ sampledRasterRow h (w : ℚ) ∧ sampledRasterRow h (w : ℚ) < (h : ℤ)) ↔
        (1 ≤ w ∧ w ≤ h)) := by
  have hs : satU32 (w : ℚ) = w := by
    simp [satU32, Int.floor_natCast]
  rw [sampledRasterRow, hs]
  exact ⟨rfl, by omega⟩

/-- C4 counterexample: PlayerPhys::new with mass -1 and a nonpositive size
component succeeds and returns a state whose mass is -1, so construction with
nonpositive mass or size is not rejected and a successfully constructed state
need not have positive mass. -/
theorem C4_counterexample :
    (PlayerPhys.new (F64x2.new 0 0) (-1) (F64x2.new (-2) 0)).mass = -1
    ∧ ¬ 0 < (PlayerPhys.new (F64x2.new 0 0) (-1) (F64x2.new (-2) 0)).mass
    ∧ ¬ 0 < (PlayerPhys.new (F64x2.new 0 0) (-1) (F64x2.new (-2) 0)).size.x := by
  refine ⟨rfl, ?_, ?_⟩ <;> norm_num [PlayerPhys.new]

/-- C4 (amended): construction performs no validation: PlayerPhys::new accepts
every mass and size (including nonpositive ones) and stores them unchanged,
with zero force, acceleration, velocity and movement forces, facing Right and
all limit fields 0. -/
theorem C4_theorem (loc : F64x2) (mass : ℚ) (size : F64x2) :
    (PlayerPhys.new loc mass size).loc = loc
    ∧ (PlayerPhys.new loc mass size).mass = mass
    ∧ (PlayerPhys.new loc mass size).size = size
    ∧ (PlayerPhys.new loc mass size).force = F64x2.zero
    ∧ (PlayerPhys.new loc mass size).accel = F64x2.zero
    ∧ (PlayerPhys.new loc mass size).vel = F64x2.zero
    ∧ (PlayerPhys.new loc mass size).movement_forces = F64x2.zero
    ∧ (PlayerPhys.new loc mass size).last_direction = HorizontalDirection.Right
    ∧ (PlayerPhys.new loc mass size).x0_min = 0
    ∧ (PlayerPhys.new loc mass size).y0_min = 0 :=
  ⟨rfl, rfl, rfl, rfl, rfl, rfl, rfl, rfl, rfl, rfl⟩

/-- C10 (confirmed): one call to update leaves mass, size, the external force
accumulator and the movement forces unchanged; only loc, vel, accel,
last_direction and the per-probe limit fields are assigned by update. -/
theorem C10_theorem (s : PlayerPhys) (dt : ℚ) (map : WorldMap) :
    (s.update dt map).mass = s.mass
    ∧ (s.update dt map).size = s.size
    ∧ (s.update dt map).force = s.force
    ∧ (s.update dt map).movement_forces = s.movement_forces :=
  ⟨rfl, rfl, rfl, rfl⟩

/-- C5 (confirmed): the friction update applied to velocity.x when a feet-probe
Collision material was recorded never flips its sign: the result is exactly 0
or has the same sign as the pre-friction velocity.x, for every friction
coefficient and dt. -/
theorem C5_theorem (velx c dt : ℚ) :
    frictionStep velx c dt = 0
    ∨ (0 < frictionStep velx c dt ∧ 0 < velx)
    ∨ (frictionStep velx c dt < 0 ∧ velx < 0) := by
  simp only [frictionStep]
  generalize (if ¬ velx < 0 then -(c * GRAVITY.y * dt) else c * GRAVITY.y * dt) = f
  split_ifs with hcond
  · rcases hcond with ⟨habs, hsign⟩
    rcases lt_trichotomy velx 0 with hv | hv | hv
    · exact Or.inr (Or.inr ⟨hsign.mpr hv, hv⟩)
    · exfalso
      rw [hv] at habs
      simp only [zero_sub, abs_neg, abs_zero] at habs
      exact (abs_nonneg f).not_lt habs
    · rcases eq_or_lt_of_le (not_lt.mp (fun hneg => (hv.not_lt (hsign.mp hneg)))) with he | hl
      · exact Or.inl he.symm
      · exact Or.inr (Or.inl ⟨hl, hv⟩)
  · exact Or.inl rfl

theorem fmax_eq_max (a b : ℚ) : fmax a b = max a b := by
  rw [fmax, max_def]
  rcases lt_or_le b a with h | h
  · rw [if_pos h, if_neg (not_le.mpr h)]
  · rw [if_neg (not_lt.mpr h), if_pos h]

theorem fmin_eq_min (a b : ℚ) : fmin a b = min a b := by
  rw [fmin, min_def]
  rcases lt_or_le b a with h | h
  · rw [if_pos h, if_neg (not_le.mpr h)]
  · rw [if_neg (not_lt.mpr h), if_pos h]

theorem aggMax4_spec (a b c d : ℚ) :
    aggMax4 a b c d ∈ [a, b, c, d] ∧ ∀ v ∈ [a, b, c, d], v ≤ aggMax4 a b c d := by
  simp only [aggMax4, fmax_eq_max, List.mem_cons, List.not_mem_nil, or_false,
    List.mem_singleton, forall_eq_or_imp, forall_eq]
  constructor
  · rcases max_choice (max a b) (max c d) with h | h <;> rw [h]
    · rcases max_choice a b with h2 | h2 <;> rw [h2] <;> simp
    · rcases max_choice c d with h2 | h2 <;> rw [h2] <;> simp
  · refine ⟨?_, ?_, ?_, ?_⟩
    · exact le_max_of_le_left (le_max_left a b)
    · exact le_max_of_le_left (le_max_right a b)
    · exact le_max_of_le_right (le_max_left c d)
    · exact le_max_of_le_right (le_max_right c d)

theorem aggMin4_spec (a b c d : ℚ) :
    aggMin4 a b c d ∈ [a, b, c, d] ∧ ∀ v ∈ [a, b, c, d], aggMin4 a b c d ≤ v := by
  simp only [aggMin4, fmin_eq_min, List.mem_cons, List.not_mem_nil, or_false,
    List.mem_singleton, forall_eq_or_imp, forall_eq]
  constructor
  · rcases min_choice (min a b) (min c d) with h | h <;> rw [h]
    · rcases min_choice a b with h2 | h2 <;> rw [h2] <;> simp
    · rcases min_choice c d with h2 | h2 <;> rw [h2] <;> simp
  · refine ⟨?_, ?_, ?_, ?_⟩
    · exact min_le_of_left_le (min_le_left a b)
    · exact min_le_of_left_le (min_le_right a b)
    · exact min_le_of_right_le (min_le_left c d)
    · exact min_le_of_right_le (min_le_right c d)

theorem aggMax3_spec (a b c : ℚ) :
    aggMax3 a b c ∈ [a, b, c] ∧ ∀ v ∈ [a, b, c], v ≤ aggMax3 a b c := by
  simp only [aggMax3, fmax_eq_max, List.mem_cons, List.not_mem_nil, or_false,
    List.mem_singleton, forall_eq_or_imp, forall_eq]
  constructor
  · rcases max_choice (max a b) c with h | h <;> rw [h]
    · rcases max_choice a b with h2 | h2 <;> rw [h2] <;> simp
    · simp
  · exact ⟨le_max_of_le_left (le_max_left a b),
      le_max_of_le_left (le_max_right a b), le_max_right _ c⟩

theorem aggMin3_spec (a b c : ℚ) :
    aggMin3 a b c ∈ [a, b, c] ∧ ∀ v ∈ [a, b, c], aggMin3 a b c ≤ v := by
  simp only [aggMin3, fmin_eq_min, List.mem_cons, List.not_mem_nil, or_false,
    List.mem_singleton, forall_eq_or_imp, forall_eq]
  constructor
  · rcases min_choice (min a b) c with h | h <;> rw [h]
    · rcases min_choice a b with h2 | h2 <;> rw [h2] <;> simp
    · simp
  · exact ⟨min_le_of_left_le (min_le_left a b),
      min_le_of_left_le (min_le_right a b), min_le_right _ c⟩

/-- C6 (confirmed): the resolved per-axis boundary for each edge is the most
restrictive aggregate of that edge's probes — for the minimum sides the
aggregate is the maximum of the probe values, for the maximum sides the
minimum (both for the four-probe x edges and the three-probe y edges of
update), and the aggregate is invariant under every permutation of the probe
values. -/
theorem C6_theorem (a b c d : ℚ) :
    (aggMax4 a b c d ∈ [a, b, c, d] ∧ ∀ v ∈ [a, b, c, d], v ≤ aggMax4 a b c d)
    ∧ (aggMin4 a b c d ∈ [a, b, c, d] ∧ ∀ v ∈ [a, b, c, d], aggMin4 a b c d ≤ v)
    ∧ (aggMax3 a b c ∈ [a, b, c] ∧ ∀ v ∈ [a, b, c], v ≤ aggMax3 a b c)
    ∧ (aggMin3 a b c ∈ [a, b, c] ∧ ∀ v ∈ [a, b, c], aggMin3 a b c ≤ v)
    ∧ (∀ p q r s : ℚ, [p, q, r, s].Perm [a, b, c, d] →
        aggMax4 p q r s = aggMax4 a b c d ∧ aggMin4 p q r s = aggMin4 a b c d)
    ∧ (∀ p q r : ℚ, [p, q, r].Perm [a, b, c] →
        aggMax3 p q r = aggMax3 a b c ∧ aggMin3 p q r = aggMin3 a b c) := by
  refine ⟨aggMax4_spec a b c d, aggMin4_spec a b c d, aggMax3_spec a b c,
    aggMin3_spec a b c, ?_, ?_⟩
  · intro p q r s hp
    constructor
    · exact le_antisymm
        ((aggMax4_spec a b c d).2 _ (hp.mem_iff.mp (aggMax4_spec p q r s).1))
        ((aggMax4_spec p q r s).2 _ (hp.mem_iff.mpr (aggMax4_spec a b c d).1))
    · exact le_antisymm
        ((aggMin4_spec p q r s).2 _ (hp.mem_iff.mpr (aggMin4_spec a b c d).1))
        ((aggMin4_spec a b c d).2 _ (hp.mem_iff.mp (aggMin4_spec p q r s).1))
  · intro p q r hp
    constructor
    · exact le_antisymm
        ((aggMax3_spec a b c).2 _ (hp.mem_iff.mp (aggMax3_spec p q r).1))
        ((aggMax3_spec p q r).2 _ (hp.mem_iff.mpr (aggMax3_spec a b c).1))
    · exact le_antisymm
        ((aggMin3_spec p q r).2 _ (hp.mem_iff.mpr (aggMin3_spec a b c).1))
        ((aggMin3_spec a b c).2 _ (hp.mem_iff.mp (aggMin3_spec p q r).1))

/-- C6 witness: the aggregation theorem applied to the concrete probe values
1, 3, 2, 0 and the permutation 0, 2, 3, 1 of them. -/
theorem C6_witness :
    ([(0 : ℚ), 2, 3, 1].Perm [1, 3, 2, 0])
    ∧ aggMax4 (0 : ℚ) 2 3 1 = aggMax4 1 3 2 0
    ∧ aggMin4 (0 : ℚ) 2 3 1 = aggMin4 1 3 2 0 := by
  have hp : ([(0 : ℚ), 2, 3, 1].Perm [1, 3, 2, 0]) := by
    decide
  have h := (C6_theorem 1 3 2 0).2.2.2.2.1 0 2 3 1 hp
  exact ⟨hp, h.1, h.2⟩

/-- C7 (confirmed): in the clamp resolution step the bounce factor used to
reflect the velocity is, on every one of the four sides, the single
bounce_coeff parameter — which update sources from the feet-probe Collision
material, also for the horizontal clamps — and the location is clamped to the
aggregated boundary, offset by the body size on the max sides; an unviolated
axis leaves location and velocity components unchanged.  The x max check reads
the location already clamped by the x min check, so both x clamps can fire in
one tick. -/
theorem C7_theorem (loc vel size : F64x2) (x_min x_max y_min y_max bounce_coeff : ℚ) :
    ((resolveClamps loc vel size x_min x_max y_min y_max bounce_coeff).1.x = loc.x
      ∨ (resolveClamps loc vel size x_min x_max y_min y_max bounce_coeff).1.x = x_min
      ∨ (resolveClamps loc vel size x_min x_max y_min y_max bounce_coeff).1.x = x_max - size.x)
    ∧ ((resolveClamps loc vel size x_min x_max y_min y_max bounce_coeff).1.y = loc.y
      ∨ (resolveClamps loc vel size x_min x_max y_min y_max bounce_coeff).1.y = y_min
      ∨ (resolveClamps loc vel size x_min x_max y_min y_max bounce_coeff).1.y = y_max - size.y)
    ∧ (loc.x < x_min → x_min + size.x ≤ x_max →
        (resolveClamps loc vel size x_min x_max y_min y_max bounce_coeff).1.x = x_min
        ∧ (resolveClamps loc vel size x_min x_max y_min y_max bounce_coeff).2.x
          = -vel.x * bounce_coeff)
    ∧ (loc.x < x_min → x_min + size.x > x_max →
        (resolveClamps loc vel size x_min x_max y_min y_max bounce_coeff).1.x = x_max - size.x
        ∧ (resolveClamps loc vel size x_min x_max y_min y_max bounce_coeff).2.x
          = -(-vel.x * bounce_coeff) * bounce_coeff)
    ∧ (x_min ≤ loc.x → loc.x + size.x > x_max →
        (resolveClamps loc vel size x_min x_max y_min y_max bounce_coeff).1.x = x_max - size.x
        ∧ (resolveClamps loc vel size x_min x_max y_min y_max bounce_coeff).2.x
          = -vel.x * bounce_coeff)
    ∧ (x_min ≤ loc.x → loc.x + size.x ≤ x_max →
        (resolveClamps loc vel size x_min x_max y_min y_max bounce_coeff).1.x = loc.x
        ∧ (resolveClamps loc vel size x_min x_max y_min y_max bounce_coeff).2.x = vel.x)
    ∧ (loc.y < y_min → y_min + size.y ≤ y_max →
        (resolveClamps loc vel size x_min x_max y_min y_max bounce_coeff).1.y = y_min
        ∧ (resolveClamps loc vel size x_min x_max y_min y_max bounce_coeff).2.y
          = -vel.y * bounce_coeff)
    ∧ (loc.y < y_min → y_min + size.y > y_max →
        (resolveClamps loc vel size x_min x_max y_min y_max bounce_coeff).1.y = y_max - size.y
        ∧ (resolveClamps loc vel size x_min x_max y_min y_max bounce_coeff).2.y
          = -(-vel.y * bounce_coeff) * bounce_coeff)
    ∧ (y_min ≤ loc.y → loc.y + size.y > y_max →
        (resolveClamps loc vel size x_min x_max y_min y_max bounce_coeff).1.y = y_max - size.y
        ∧ (resolveClamps loc vel size x_min x_max y_min y_max bounce_coeff).2.y
          = -vel.y * bounce_coeff)
    ∧ (y_min ≤ loc.y → loc.y + size.y ≤ y_max →
        (resolveClamps loc vel size x_min x_max y_min y_max bounce_coeff).1.y = loc.y
        ∧ (resolveClamps loc vel size x_min x_max y_min y_max bounce_coeff).2.y = vel.y) := by
  simp only [resolveClamps]
  refine ⟨?_, ?_, ?_, ?_, ?_, ?_, ?_, ?_, ?_, ?_⟩
  · split_ifs <;> simp
  · split_ifs <;> simp
  · intro h1 h2
    simp only [if_pos h1, if_neg (not_lt.mpr h2)]
    exact ⟨trivial, trivial⟩
  · intro h1 h2
    simp only [if_pos h1, if_pos h2]
    exact ⟨trivial, trivial⟩
  · intro h1 h2
    simp only [if_neg (not_lt.mpr h1), if_pos h2]
    exact ⟨trivial, trivial⟩
  · intro h1 h2
    simp only [if_neg (not_lt.mpr h1), if_neg (not_lt.mpr h2)]
    exact ⟨trivial, trivial⟩
  · intro h1 h2
    simp only [if_pos h1, if_neg (not_lt.mpr h2)]
    exact ⟨trivial, trivial⟩
  · intro h1 h2
    simp only [if_pos h1, if_pos h2]
    exact ⟨trivial, trivial⟩
  · intro h1 h2
    simp only [if_neg (not_lt.mpr h1), if_pos h2]
    exact ⟨trivial, trivial⟩
  · intro h1 h2
    simp only [if_neg (not_lt.mpr h1), if_neg (not_lt.mpr h2)]
    exact ⟨trivial, trivial⟩

/-- C7 witness: the clamp characterization applied to a concrete state whose x
min side is violated: the location is clamped to x_min = 1 and the velocity is
reflected with the feet bounce factor 1/2. -/
theorem C7_witness :
    (resolveClamps (F64x2.new 0 0) (F64x2.new 1 2) (F64x2.new 1 1) 1 10 (-1) 10 (1 / 2)).1.x = 1
    ∧ (resolveClamps (F64x2.new 0 0) (F64x2.new 1 2) (F64x2.new 1 1) 1 10 (-1) 10 (1 / 2)).2.x
      = -(1 / 2) := by
  have h := C7_theorem (F64x2.new 0 0) (F64x2.new 1 2) (F64x2.new 1 1) 1 10 (-1) 10 (1 / 2)
  have h3 := h.2.2.1 (by norm_num) (by norm_num)
  refine ⟨h3.1, ?_⟩
  rw [h3.2]
  norm_num

/-- C2 counterexample: with the body over fully transparent terrain at
x = 1/10, no feet-probe Collision material is recorded but the aggregated
x min limit (1/5) is violated after the tick; update neither clamps the
location to the boundary nor applies any fallback bounce: the final location
still violates the limit instead of equalling it. -/
theorem C2_counterexample :
    (runProbes emptyMap (pixelSpaceCoords (1 / emptyMap.map_px_to_meter) anomalyState.loc)).info
      = none
    ∧ anyLimitViolation (anomalyState.update (1 / 100) emptyMap).loc anomalyState.size
        (aggMax4 (anomalyState.update (1 / 100) emptyMap).x0_min
          (anomalyState.update (1 / 100) emptyMap).x1_min
          (anomalyState.update (1 / 100) emptyMap).x2_min
          (anomalyState.update (1 / 100) emptyMap).x3_min)
        (aggMin4 (anomalyState.update (1 / 100) emptyMap).x0_max
          (anomalyState.update (1 / 100) emptyMap).x1_max
          (anomalyState.update (1 / 100) emptyMap).x2_max
          (anomalyState.update (1 / 100) emptyMap).x3_max)
        (aggMax3 (anomalyState.update (1 / 100) emptyMap).y0_min
          (anomalyState.update (1 / 100) emptyMap).y1_min
          (anomalyState.update (1 / 100) emptyMap).y2_min)
        (aggMin3 (anomalyState.update (1 / 100) emptyMap).y0_max
          (anomalyState.update (1 / 100) emptyMap).y1_max
          (anomalyState.update (1 / 100) emptyMap).y2_max)
    ∧ (anomalyState.update (1 / 100) emptyMap).loc.x
        < aggMax4 (anomalyState.update (1 / 100) emptyMap).x0_min
            (anomalyState.update (1 / 100) emptyMap).x1_min
            (anomalyState.update (1 / 100) emptyMap).x2_min
            (anomalyState.update (1 / 100) emptyMap).x3_min
    ∧ (anomalyState.update (1 / 100) emptyMap).loc.x
        ≠ aggMax4 (anomalyState.update (1 / 100) emptyMap).x0_min
            (anomalyState.update (1 / 100) emptyMap).x1_min
            (anomalyState.update (1 / 100) emptyMap).x2_min
            (anomalyState.update (1 / 100) emptyMap).x3_min := by
  decide

/-- C2 (amended): when no feet-probe Collision material was recorded this
tick, update only reports the anomaly (the logged error of phys.rs line 258)
and leaves the integrated position and velocity untouched — no fallback bounce
is applied and the location is not clamped, even when an axis limit is
violated. -/
theorem C2_theorem (s : PlayerPhys) (dt : ℚ) (map : WorldMap)
    (h : (runProbes map (pixelSpaceCoords (1 / map.map_px_to_meter) s.loc)).info = none) :
    (s.update dt map).loc
      = s.loc + (s.vel + GRAVITY.smul dt
          + ((s.force + s.movement_forces).sdiv s.mass).smul dt).smul dt
    ∧ (s.update dt map).vel
      = s.vel + GRAVITY.smul dt + ((s.force + s.movement_forces).sdiv s.mass).smul dt := by
  simp only [PlayerPhys.update, PlayerPhys.finishUpdate]
  rw [h]
  exact ⟨rfl, rfl⟩

theorem C2_witness_info :
    (runProbes emptyMap (pixelSpaceCoords (1 / emptyMap.map_px_to_meter) anomalyState.loc)).info
      = none := by
  decide

/-- C2 witness: the amended theorem applied to the concrete anomalous scenario
(transparent 6x6 raster, body at (1/10, 1/2), dt = 1/100). -/
theorem C2_witness :
    (anomalyState.update (1 / 100) emptyMap).loc
      = anomalyState.loc + (anomalyState.vel + GRAVITY.smul (1 / 100)
          + ((anomalyState.force + anomalyState.movement_forces).sdiv
              anomalyState.mass).smul (1 / 100)).smul (1 / 100)
    ∧ (anomalyState.update (1 / 100) emptyMap).vel
      = anomalyState.vel + GRAVITY.smul (1 / 100)
          + ((anomalyState.force + anomalyState.movement_forces).sdiv
              anomalyState.mass).smul (1 / 100) :=
  C2_theorem anomalyState (1 / 100) emptyMap C2_witness_info

/-- C9 counterexample: on a 2-pixel-high raster the upward (+y, mode 2) probe
launched from start row 4 (the y max probe offset used by update for a body in
cell row 0) computes height - lim = 2 - 4, so the unsigned subtraction
underflows: its error branch is reached. -/
theorem C9_counterexample :
    (get_limit tinyMap (F64x2.new 0 4) Mode.yMax none).underflow = true := by
  decide

theorem satU32_natCast (n : ℕ) : satU32 (n : ℚ) = n := by
  simp [satU32, Int.floor_natCast]

theorem scanEffects_snd_of_not_feet (effects : List TileEffect) :
    ∀ (b : Bool) (info : Option (ℚ × F64x2)),
      (effects.foldl
        (fun acc e =>
          match e with
          | TileEffect.Collision bounce_factor friction =>
            (true, if false then some (bounce_factor, friction) else acc.2)
          | _ => acc)
        (b, info)).2 = info := by
  induction effects with
  | nil =>
    intro b info
    rfl
  | cons e es ih =>
    intro b info
    cases e <;> simp only [List.foldl_cons] <;> exact ih _ info

theorem pixelScan_snd_of_not_feet (em : TileEffectMap) (info : Option (ℚ × F64x2))
    (p : Rgba) : (pixelScan em false info p).2 = info := by
  unfold pixelScan
  cases em p with
  | none => rfl
  | some eff => exact scanEffects_snd_of_not_feet eff.1 false info

/-- An upward (mode 2) scan over an in-bounds column none of whose in-bounds
pixels carries a Collision effect walks past the raster top (row 0 is in
bounds and does not stop it) until the height - lim subtraction underflows. -/
theorem upScan_underflow (m : WorldMap) (start : F64x2) (info : Option (ℚ × F64x2))
    (hx : satU32 start.x < m.width)
    (hnc : ∀ row, row < m.height →
      (pixelScan m.effect_map false info (m.pix (satU32 start.x) row)).1 = false) :
    ∀ (fuel : ℕ) (lim : ℚ) (uf : Bool),
      1 ≤ satU32 lim → satU32 lim ≤ m.height + 1 → m.height + 2 ≤ satU32 lim + fuel →
      (getLimitGo m start Mode.yMax fuel lim info uf).underflow = true := by
  intro fuel
  induction fuel with
  | zero =>
    intro lim uf h1 h2 h3
    omega
  | succ n ih =>
    intro lim uf h1 h2 h3
    have hbeq : (Mode.yMax == Mode.yMin) = false := rfl
    rcases Nat.lt_or_ge m.height (satU32 lim) with htop | hin
    · have hneg : sampledRasterRow m.height lim < 0 := by
        rw [sampledRasterRow]; omega
      simp only [getLimitGo]
      rw [if_neg (not_le.mpr hneg)]
      simp [hneg]
    · have hrow : 0 ≤ sampledRasterRow m.height lim := by
        rw [sampledRasterRow]; omega
      have hgp : m.get_pixel_checked (satU32 start.x) (sampledRasterRow m.height lim).toNat
          = some (m.pix (satU32 start.x) (sampledRasterRow m.height lim).toNat) := by
        rw [WorldMap.get_pixel_checked, if_pos]
        refine ⟨hx, ?_⟩
        rw [sampledRasterRow]
        omega
      have hrlt : (sampledRasterRow m.height lim).toNat < m.height := by
        rw [sampledRasterRow]
        omega
      simp only [getLimitGo, hbeq]
      rw [if_pos hrow, hgp]
      dsimp only
      rw [hnc _ hrlt]
      simp only [Bool.false_eq_true, if_false]
      rw [pixelScan_snd_of_not_feet]
      apply ih
      · rw [satU32_natCast]
        omega
      · rw [satU32_natCast]
        omega
      · rw [satU32_natCast]
        omega

/-- C9 (amended): the unsigned subtraction map.height() - lim of the upward
(mode 2) probe can underflow, in both ways the scan's current row can come to
exceed the raster height: on the first sample, whenever the probe's start row
already exceeds the height (as for update's y max probes, start row = cell row
+ 4, on any raster less than 5 pixels taller than the body's cell row); and
whenever an in-bounds upward scan (start row between 1 and the height, column
in bounds) passes the raster top without any in-bounds pixel of the column
carrying a Collision effect — row 0 is in bounds and does not stop the scan.
In each case the error branch of the subtraction is reached (and, with the
wrapping semantics, the wrapped row is out of bounds and stops the scan). -/
theorem C9_theorem (map : WorldMap) (start : F64x2) (info : Option (ℚ × F64x2)) :
    ((map.height : ℤ) < (satU32 start.y : ℤ) →
      (get_limit map start Mode.yMax info).underflow = true)
    ∧ (1 ≤ satU32 start.y → satU32 start.y ≤ map.height → satU32 start.x < map.width →
      (∀ row, row < map.height →
        (pixelScan map.effect_map false info (map.pix (satU32 start.x) row)).1 = false) →
      (get_limit map start Mode.yMax info).underflow = true) := by
  constructor
  · intro h
    have hneg : sampledRasterRow map.height start.y < 0 := by
      rw [sampledRasterRow]; omega
    rw [get_limit]
    dsimp only
    rw [show map.width + map.height + satU32 start.y + 2
        = map.width + map.height + satU32 start.y + 1 + 1 from rfl]
    simp only [getLimitGo]
    rw [if_neg (not_le.mpr hneg)]
    simp [hneg]
  · intro h1 h2 hx hnc
    rw [get_limit]
    dsimp only
    exact upScan_underflow map start info hx hnc _ start.y false h1 (by omega) (by omega)

theorem C9_witness_h : ((tinyMap.height : ℤ) < (satU32 (F64x2.new 1 5).y : ℤ)) := by
  decide

/-- C9 witness: the underflow theorem applied to the 2x2 transparent raster,
once for an upward probe starting at row 5 (above the raster top) and once for
an in-bounds upward probe starting at row 1 whose column holds no Collision
tile. -/
theorem C9_witness :
    (((tinyMap.height : ℤ) < (satU32 (F64x2.new 1 5).y : ℤ))
      ∧ (get_limit tinyMap (F64x2.new 1 5) Mode.yMax none).underflow = true)
    ∧ (1 ≤ satU32 (F64x2.new 0 1).y
      ∧ satU32 (F64x2.new 0 1).y ≤ tinyMap.height
      ∧ satU32 (F64x2.new 0 1).x < tinyMap.width
      ∧ (get_limit tinyMap (F64x2.new 0 1) Mode.yMax none).underflow = true) := by
  have h1 : 1 ≤ satU32 (F64x2.new 0 1).y := by decide
  have h2 : satU32 (F64x2.new 0 1).y ≤ tinyMap.height := by decide
  have hx : satU32 (F64x2.new 0 1).x < tinyMap.width := by decide
  have hnc : ∀ row, row < tinyMap.height →
      (pixelScan tinyMap.effect_map false none
        (tinyMap.pix (satU32 (F64x2.new 0 1).x) row)).1 = false := by decide
  exact ⟨⟨C9_witness_h, (C9_theorem tinyMap (F64x2.new 1 5) none).1 C9_witness_h⟩,
    h1, h2, hx, (C9_theorem tinyMap (F64x2.new 0 1) none).2 h1 h2 hx hnc⟩

theorem pixelScan_setEffect_empty (em : TileEffectMap) (c : Rgba)
    (conds : List TileEffectCondition) (hc : em c = none) (isFeet : Bool)
    (info : Option (ℚ × F64x2)) (p : Rgba) :
    pixelScan (setEffect em c ([], conds)) isFeet info p = pixelScan em isFeet info p := by
  unfold pixelScan setEffect
  by_cases hp : p = c
  · subst hp
    rw [hc]
    simp [scanEffects]
  · simp [hp]

theorem getLimitGo_setEffect_empty (w h : ℕ) (pix : ℕ → ℕ → Rgba) (em : TileEffectMap)
    (scale : ℚ) (cam : F64x2) (c : Rgba) (conds : List TileEffectCondition)
    (hc : em c = none) (start : F64x2) (mode : Mode) (fuel : ℕ) :
    ∀ (lim : ℚ) (info : Option (ℚ × F64x2)) (uf : Bool),
      getLimitGo ⟨w, h, pix, setEffect em c ([], conds), scale, cam⟩ start mode fuel lim info uf
      = getLimitGo ⟨w, h, pix, em, scale, cam⟩ start mode fuel lim info uf := by
  induction fuel with
  | zero =>
    intro lim info uf
    rfl
  | succ n ih =>
    intro lim info uf
    simp only [getLimitGo]
    simp only [pixelScan_setEffect_empty em c conds hc]
    simp only [ih]
    rfl

/-- C8 (confirmed): a scanned pixel whose color has no entry in the tile
effect registry is treated as passable: the per-pixel effect scan reports no
collision and records no material — exactly as for a color registered with an
empty effect list — and a whole get_limit scan over a raster behaves
identically whether the color is absent from the registry or registered with
an empty effect list. -/
theorem C8_theorem (w h : ℕ) (pix : ℕ → ℕ → Rgba) (em : TileEffectMap)
    (scale : ℚ) (cam : F64x2) (c : Rgba) (conds : List TileEffectCondition)
    (isFeet : Bool) (info0 : Option (ℚ × F64x2)) (start : F64x2) (mode : Mode)
    (info : Option (ℚ × F64x2)) (hc : em c = none) :
    pixelScan em isFeet info0 c = (false, info0)
    ∧ pixelScan (setEffect em c ([], conds)) isFeet info0 c = (false, info0)
    ∧ get_limit ⟨w, h, pix, setEffect em c ([], conds), scale, cam⟩ start mode info
      = get_limit ⟨w, h, pix, em, scale, cam⟩ start mode info := by
  refine ⟨?_, ?_, ?_⟩
  · unfold pixelScan
    rw [hc]
  · unfold pixelScan setEffect
    simp [scanEffects]
  · unfold get_limit
    simp only [getLimitGo_setEffect_empty w h pix em scale cam c conds hc]

/-- C8 witness: the unregistered color (1, 2, 3, 4) against the reference
registry, on a 2x2 raster entirely filled with that color: the pixel scan
reports no collision, and the feet-probe get_limit scan returns the same
result as with the color registered with an empty effect list. -/
theorem C8_witness :
    referenceEffectMap ⟨1, 2, 3, 4⟩ = none
    ∧ pixelScan referenceEffectMap true none ⟨1, 2, 3, 4⟩ = (false, none)
    ∧ pixelScan (setEffect referenceEffectMap ⟨1, 2, 3, 4⟩ ([], [])) true none ⟨1, 2, 3, 4⟩
      = (false, none)
    ∧ get_limit ⟨2, 2, fun _ _ => Rgba.mk 1 2 3 4,
        setEffect referenceEffectMap ⟨1, 2, 3, 4⟩ ([], []), 1 / 5, F64x2.zero⟩
        (F64x2.new 0 1) Mode.yMin none
      = get_limit ⟨2, 2, fun _ _ => Rgba.mk 1 2 3 4, referenceEffectMap, 1 / 5, F64x2.zero⟩
        (F64x2.new 0 1) Mode.yMin none := by
  have hc : referenceEffectMap ⟨1, 2, 3, 4⟩ = none := by decide
  have h := C8_theorem 2 2 (fun _ _ => Rgba.mk 1 2 3 4) referenceEffectMap (1 / 5) F64x2.zero
    ⟨1, 2, 3, 4⟩ [] true none (F64x2.new 0 1) Mode.yMin none hc
  exact ⟨hc, h.1, h.2.1, h.2.2⟩

theorem restCell_gold :
    pixelSpaceCoords (1 / goldFloorMap.map_px_to_meter) restState.loc = F64x2.new 3 1 := by
  decide

theorem restCell_white :
    pixelSpaceCoords (1 / whiteFloorMap.map_px_to_meter) restState.loc = F64x2.new 3 1 := by
  decide

theorem runProbes_gold : runProbes goldFloorMap (F64x2.new 3 1) =
    { y0_min := 1 / 5, y1_min := 1 / 5, y2_min := 1 / 5,
      y0_max := 6 / 5, y1_max := 6 / 5, y2_max := 6 / 5,
      x0_min := 1 / 5, x1_min := 1 / 5, x2_min := 1 / 5, x3_min := 1 / 5,
      x0_max := 6 / 5, x1_max := 6 / 5, x2_max := 6 / 5, x3_max := 6 / 5,
      info := some (0, F64x2.new (3 / 20) 0) } := by
  decide

theorem runProbes_white : runProbes whiteFloorMap (F64x2.new 3 1) =
    { y0_min := 1 / 5, y1_min := 1 / 5, y2_min := 1 / 5,
      y0_max := 6 / 5, y1_max := 6 / 5, y2_max := 6 / 5,
      x0_min := 1 / 5, x1_min := 1 / 5, x2_min := 1 / 5, x3_min := 1 / 5,
      x0_max := 6 / 5, x1_max := 6 / 5, x2_max := 6 / 5, x3_max := 6 / 5,
      info := some (3 / 20, F64x2.new (1 / 2) 0) } := by
  decide

theorem frictionStep_zero (c dt : ℚ) : frictionStep 0 c dt = 0 := by
  simp only [frictionStep]
  have habs : ∀ f : ℚ, ¬ (|(0 : ℚ) - f| < |(0 : ℚ)| ∧ ((0 : ℚ) - f < 0 ↔ (0 : ℚ) < 0)) := by
    rintro f ⟨h1, -⟩
    simp only [zero_sub, abs_neg, abs_zero] at h1
    exact (abs_nonneg f).not_lt h1
  rw [if_neg (habs _)]

/-- C3 counterexample: the body at rest (zero velocity and forces) directly on
the registered white Collision tile (bounce 0.15), with its location.y equal
to this tick's aggregated y min, ends the tick with velocity.y different from
0 (it equals bounce * g * dt), refuting the claim for a general registered
Collision tile. -/
theorem C3_counterexample :
    restState.vel = F64x2.zero
    ∧ restState.force = F64x2.zero
    ∧ restState.movement_forces = F64x2.zero
    ∧ aggMax3 (restState.update (1 / 100) whiteFloorMap).y0_min
        (restState.update (1 / 100) whiteFloorMap).y1_min
        (restState.update (1 / 100) whiteFloorMap).y2_min = restState.loc.y
    ∧ (restState.update (1 / 100) whiteFloorMap).loc.y = restState.loc.y
    ∧ (restState.update (1 / 100) whiteFloorMap).vel.y ≠ 0 := by
  decide

/-- C3 (amended): for every dt > 0 and zero external and movement forces, a
body at rest directly on a registered Collision tile (location.y equal to the
aggregated y min) has unchanged location.y after one update, and its
velocity.y equals bounce * g * dt for the tile's bounce factor — in
particular velocity.y = 0 exactly for a bounce-0 tile (here: the gold tile),
while for the white tile (bounce 0.15) velocity.y = (3/20) * 9.80665 * dt. -/
theorem C3_theorem (dt : ℚ) (hdt : 0 < dt) :
    ((restState.update dt goldFloorMap).vel.y = 0
      ∧ (restState.update dt goldFloorMap).loc.y = restState.loc.y)
    ∧ ((restState.update dt whiteFloorMap).vel.y = 3 / 20 * (980665 / 100000) * dt
      ∧ (restState.update dt whiteFloorMap).loc.y = restState.loc.y) := by
  constructor
  · simp only [PlayerPhys.update]
    rw [restCell_gold, runProbes_gold]
    simp only [PlayerPhys.finishUpdate]
    norm_num [restState, PlayerPhys.new, GRAVITY, aggMax4, aggMax3, aggMin4, aggMin3, fmax, fmin]
    simp only [frictionStep_zero, resolveClamps]
    norm_num
    have hpos : 0 < (196133 : ℚ) / 20000 * dt * dt := by positivity
    simp only [if_pos hpos]
    norm_num
    intro h
    nlinarith
  · simp only [PlayerPhys.update]
    rw [restCell_white, runProbes_white]
    simp only [PlayerPhys.finishUpdate]
    norm_num [restState, PlayerPhys.new, GRAVITY, aggMax4, aggMax3, aggMin4, aggMin3, fmax, fmin]
    simp only [frictionStep_zero, resolveClamps]
    norm_num
    have hpos : 0 < (196133 : ℚ) / 20000 * dt * dt := by positivity
    simp only [if_pos hpos]
    norm_num
    ring

/-- C3 witness: the amended theorem applied at dt = 1/100: on the bounce-0
gold tile the resting body keeps velocity.y = 0 and location.y unchanged. -/
theorem C3_witness :
    (0 : ℚ) < 1 / 100
    ∧ (restState.update (1 / 100) goldFloorMap).vel.y = 0
    ∧ (restState.update (1 / 100) goldFloorMap).loc.y = restState.loc.y := by
  have h := C3_theorem (1 / 100) (by norm_num)
  exact ⟨by norm_num, h.1.1, h.1.2⟩

end Limeon
